import Mathlib

/-!
Shallow embedding of the Raspberry Pi performance monitor (src/main.py) and
verification of its specification.

Modelling conventions:
- Python integers are `Int` (or `Nat` where the source value is a non-negative
  OS counter), Python true division produces `ℚ`.
- A fallible Python computation is `Except String a`; the error string names
  the Python exception class that the source would raise there.
- External reads (files, subprocesses) are passed in as parameters: `none`
  models the read failing in the way the call site observes it.
-/

namespace RPiMonitor

/-- `RaspberryMonitor.__init__` (src/main.py line 19): `self.prev_cpu_stats = None`. -/
def init_prev_cpu_stats : Option (List Int) := none

/-- `RaspberryMonitor.__init__` (src/main.py line 20):
`self.prev_net_stats = \x7b'rx': 0, 'tx': 0\x7d`. -/
def init_prev_net_stats : Nat × Nat := (0, 0)

/-- The list comprehension of src/main.py line 77:
`deltas = [current - prev for current, prev in zip(cpu_stats, self.prev_cpu_stats)]`. -/
def cpuDeltas (cpu_stats prev : List Int) : List Int :=
  (cpu_stats.zip prev).map fun cp => cp.1 - cp.2

/-- Python `sum` over a list of ints (src/main.py line 78), which folds left from 0. -/
def listSum (l : List Int) : Int := l.foldl (· + ·) 0

/-- `RaspberryMonitor.get_cpu_usage` (src/main.py lines 66-82), with the parsed
`/proc/stat` counters `cpu_stats` passed in and the previous-sample state made
explicit.  Returns the usage percentage and the new `prev_cpu_stats` state.
`if not self.prev_cpu_stats` is a Python falsiness test, so both `None` and an
empty list take the cold-start branch.  `deltas[3]` (line 79) raises
`IndexError` when fewer than 4 deltas exist; it is evaluated before the final
conditional return, and `return ... if total_time else 0` yields 0 when the
total delta is 0. -/
def get_cpu_usage (prev_cpu_stats : Option (List Int)) (cpu_stats : List Int) :
    Except String (ℚ × Option (List Int)) :=
  match prev_cpu_stats with
  | none => .ok (0, some cpu_stats)
  | some p =>
    if p.isEmpty then .ok (0, some cpu_stats)
    else
      let deltas := cpuDeltas cpu_stats p
      let total_time := listSum deltas
      if h : 3 < deltas.length then
        let idle_time := deltas.get ⟨3, h⟩
        .ok ((if total_time ≠ 0 then (1 - (idle_time : ℚ) / (total_time : ℚ)) * 100 else 0),
          some cpu_stats)
      else .error "IndexError"

/-- `RaspberryMonitor.get_ram_usage` (src/main.py lines 104-111).  `mem_info`
is the parsed `/proc/meminfo` mapping (an association list, as built by
`get_memory_info`).  `dict.get(key, default)` is `(lookup key).getD default`.
`used_memory / total_memory` raises `ZeroDivisionError` when the looked-up
total is 0 (only possible when `MemTotal` is present with value 0, since the
missing-key default is 1). -/
def get_ram_usage (mem_info : List (String × Int)) : Except String ℚ :=
  let total_memory := (mem_info.lookup "MemTotal").getD 1
  let available_memory := (mem_info.lookup "MemAvailable").getD 0
  let used_memory := total_memory - available_memory
  if total_memory = 0 then .error "ZeroDivisionError"
  else .ok ((used_memory : ℚ) / (total_memory : ℚ) * 100)

/-- `RaspberryMonitor.get_network_speed` (src/main.py lines 41-53), with the
two sysfs counter reads passed in.  `rxRead`/`txRead` model
`int(self.get_first_line(...))`: `some n` when the counter file was read and
parsed, `none` when the read failed — `get_first_line` catches the `IOError`
and returns `''` (lines 59-64), on which `int('')` raises `ValueError`.
Returns the `(rx_speed_kb, tx_speed_kb)` pair and the new `prev_net_stats`
state, which is overwritten with the current counters unconditionally
(line 52). -/
def get_network_speed (prev_net_stats : Nat × Nat) (rxRead txRead : Option Nat) :
    Except String ((ℚ × ℚ) × (Nat × Nat)) :=
  match rxRead with
  | none => .error "ValueError"
  | some rx_bytes =>
    match txRead with
    | none => .error "ValueError"
    | some tx_bytes =>
      let rx_speed_kb : ℚ := ((rx_bytes : ℚ) - (prev_net_stats.1 : ℚ)) / 1024
      let tx_speed_kb : ℚ := ((tx_bytes : ℚ) - (prev_net_stats.2 : ℚ)) / 1024
      .ok ((rx_speed_kb, tx_speed_kb), (rx_bytes, tx_bytes))

/-- `RaspberryMonitor.get_disk_usage` (src/main.py lines 113-123).  The
`shutil.disk_usage("/")` triple `(total, used, free)` is passed in; `none`
models the call raising (any `Exception`), in which case the source logs and
returns `None` — modelled as the `none` result.  `if total` is a Python
truthiness test, so a zero total yields 0 rather than dividing. -/
def get_disk_usage (disk_query : Option (Nat × Nat × Nat)) : Option ℚ :=
  match disk_query with
  | none => none
  | some (total, used, _) =>
    some (if total ≠ 0 then (used : ℚ) / (total : ℚ) * 100 else 0)

/-- `PowerMonitor.__init__` (src/main.py line 131): `self.last_throttled = None`. -/
def init_last_throttled : Option Nat := none

/-- `PowerMonitor.analyze_throttled` (src/main.py lines 174-186).  Python
truthiness: `throttled_value & 0x1` is truthy iff non-zero. -/
def analyze_throttled (throttled_value : Nat) : String :=
  if throttled_value &&& 0x1 ≠ 0 then "Undervolt"
  else if throttled_value &&& 0x2 ≠ 0 then "Freq cap"
  else if throttled_value &&& 0x4 ≠ 0 then "Throttled"
  else if throttled_value &&& 0x8 ≠ 0 then "Temp limit"
  else "OK"

/-- The main loop's power-status step (src/main.py lines 249-250):
`throttled_value = power_monitor.get_throttled_status()` may be `None`
(failed subprocess), and the loop passes it to `analyze_throttled` with no
`None` check, where `None & 0x1` (line 178) raises `TypeError`. -/
def analyze_throttled_loop (throttled_value : Option Nat) : Except String String :=
  match throttled_value with
  | none => .error "TypeError"
  | some tv => .ok (analyze_throttled tv)

/-- `PowerMonitor.get_power_status` (src/main.py lines 133-157), with the
`get_throttled_status()` result passed in (`none` = the subprocess failed and
the source returned `None`).  Returns the new `last_throttled` state and the
result.  After the cold-start branch the source computes
`current_issues = self.analyze_throttled(throttled_value & 0xffff)` and
`past_issues = self.analyze_throttled(throttled_value >> 16)`, both of which
are *strings* (never empty, `analyze_throttled` at worst returns `"OK"`), and
then evaluates
`combined_issues = current_issues + (["Past Issues:"] + past_issues if past_issues else [])`
(line 153).  Since `past_issues` is a non-empty string it is truthy, so
`["Past Issues:"] + past_issues` concatenates a list with a string and raises
`TypeError` (and the `else` arm would raise the same way on
`current_issues + []`).  Hence every call that reaches line 153 raises; the
state update of line 149 (`self.last_throttled = throttled_value` when the
value changed) has already happened by then, so the returned state is
`some throttled_value` in every non-`None` case. -/
def get_power_status (last_throttled : Option Nat) (throttled_read : Option Nat) :
    Option Nat × Except String String :=
  match throttled_read with
  | none => (last_throttled, .ok "Unable to determine power status")
  | some throttled_value =>
    match last_throttled with
    | none => (some throttled_value, .ok "Checking status")
    | some _ =>
      let current_issues := analyze_throttled (throttled_value &&& 0xffff)
      let past_issues := analyze_throttled (throttled_value >>> 16)
      let _ := current_issues
      let _ := past_issues
      (some throttled_value, .error "TypeError")

/-! ### Helper lemmas -/

/-- The left fold of `+` over a list of non-negative ints, from any start value,
is at least the start value. -/
lemma foldl_add_le_start (l : List Int) (a : Int) (hl : ∀ x ∈ l, 0 ≤ x) :
    a ≤ l.foldl (· + ·) a := by
  induction l generalizing a with
  | nil => simp
  | cons y ys ih =>
    have hy : 0 ≤ y := hl y (List.mem_cons_self y ys)
    have hys : ∀ x ∈ ys, 0 ≤ x := fun x hx => hl x (List.mem_cons_of_mem y hx)
    calc a ≤ a + y := by omega
    _ ≤ ys.foldl (· + ·) (a + y) := ih (a + y) hys
    _ = (y :: ys).foldl (· + ·) a := rfl

/-- Each element of a list of non-negative ints is at most the left fold of `+`
over the list from a non-negative start value. -/
lemma getElem_le_foldl_add (l : List Int) (a : Int) (hl : ∀ x ∈ l, 0 ≤ x)
    (ha : 0 ≤ a) (i : Nat) (hi : i < l.length) :
    l.get ⟨i, hi⟩ ≤ l.foldl (· + ·) a := by
  induction l generalizing a i with
  | nil => simp at hi
  | cons y ys ih =>
    have hy : 0 ≤ y := hl y (List.mem_cons_self y ys)
    have hys : ∀ x ∈ ys, 0 ≤ x := fun x hx => hl x (List.mem_cons_of_mem y hx)
    cases i with
    | zero =>
      have : a + y ≤ ys.foldl (· + ·) (a + y) := foldl_add_le_start ys (a + y) hys
      simpa using le_trans (by omega : y ≤ a + y) this
    | succ j =>
      have hj : j < ys.length := by simpa using hi
      simpa using ih (a + y) hys (by omega) j hj

/-- `(v &&& 15) &&& k = v &&& k` whenever the mask `k` is contained in the low
four bits (`k &&& 15 = k`). -/
lemma and_fifteen_and (v k : Nat) (hk : k &&& 15 = k) : (v &&& 15) &&& k = v &&& k := by
  apply Nat.eq_of_testBit_eq
  intro i
  have hki : (k.testBit i && (15 : Nat).testBit i) = k.testBit i := by
    rw [← Nat.testBit_and, hk]
  simp only [Nat.testBit_and]
  cases hv : v.testBit i <;> cases h15 : (15 : Nat).testBit i <;>
    cases hkk : k.testBit i <;> simp_all

/-- The deltas of a list against itself are all zero. -/
lemma cpuDeltas_self (s : List Int) : cpuDeltas s s = List.replicate s.length 0 := by
  induction s with
  | nil => rfl
  | cons y ys ih =>
    simp only [cpuDeltas, List.zip_cons_cons, List.map_cons, List.length_cons,
      List.replicate_succ] at *
    rw [ih]
    simp

/-- The left fold of `+` over a replicate of zeros is zero. -/
lemma listSum_replicate_zero (n : Nat) : listSum (List.replicate n 0) = 0 := by
  have h : ∀ m (a : Int), (List.replicate m (0 : Int)).foldl (· + ·) a = a := by
    intro m
    induction m with
    | zero => intro a; rfl
    | succ k ih => intro a; simpa [List.replicate_succ] using ih (a + 0)
  simpa [listSum] using h n 0

/-! ### Claims -/

/-- C6: `analyze_throttled` reports only the first matching bit in the strict
priority order Undervolt (bit 0) > Freq cap (bit 1) > Throttled (bit 2) >
Temp limit (bit 3), returning "OK" when none of these bits is set, even when
multiple bits are set; in particular `analyze_throttled 0b1001` returns
"Undervolt", never "Temp limit". -/
theorem C6_analyze_priority :
    (∀ v : Nat, v &&& 0x1 ≠ 0 → analyze_throttled v = "Undervolt") ∧
    (∀ v : Nat, v &&& 0x1 = 0 → v &&& 0x2 ≠ 0 → analyze_throttled v = "Freq cap") ∧
    (∀ v : Nat, v &&& 0x1 = 0 → v &&& 0x2 = 0 → v &&& 0x4 ≠ 0 →
      analyze_throttled v = "Throttled") ∧
    (∀ v : Nat, v &&& 0x1 = 0 → v &&& 0x2 = 0 → v &&& 0x4 = 0 → v &&& 0x8 ≠ 0 →
      analyze_throttled v = "Temp limit") ∧
    (∀ v : Nat, v &&& 0x1 = 0 → v &&& 0x2 = 0 → v &&& 0x4 = 0 → v &&& 0x8 = 0 →
      analyze_throttled v = "OK") ∧
    analyze_throttled 0b1001 = "Undervolt" ∧ analyze_throttled 0b1001 ≠ "Temp limit" := by
  refine ⟨?_, ?_, ?_, ?_, ?_, by decide, by decide⟩
  · intro v h1
    rw [Nat.and_one_is_mod] at h1
    simp [analyze_throttled, Nat.and_one_is_mod, h1]
  · intro v h1 h2
    rw [Nat.and_one_is_mod] at h1
    simp [analyze_throttled, Nat.and_one_is_mod, h1, h2]
  · intro v h1 h2 h3
    rw [Nat.and_one_is_mod] at h1
    simp [analyze_throttled, Nat.and_one_is_mod, h1, h2, h3]
  · intro v h1 h2 h3 h4
    rw [Nat.and_one_is_mod] at h1
    simp [analyze_throttled, Nat.and_one_is_mod, h1, h2, h3, h4]
  · intro v h1 h2 h3 h4
    rw [Nat.and_one_is_mod] at h1
    simp [analyze_throttled, Nat.and_one_is_mod, h1, h2, h3, h4]

/-- Witness for C6 at concrete multi-bit inputs. -/
theorem C6_analyze_priority_witness :
    analyze_throttled 0b1011 = "Undervolt" ∧ analyze_throttled 0b1110 = "Freq cap" ∧
    analyze_throttled 0b1100 = "Throttled" ∧ analyze_throttled 0b1000 = "Temp limit" ∧
    analyze_throttled 0b10000 = "OK" :=
  ⟨C6_analyze_priority.1 0b1011 (by decide),
   C6_analyze_priority.2.1 0b1110 (by decide) (by decide),
   C6_analyze_priority.2.2.1 0b1100 (by decide) (by decide) (by decide),
   C6_analyze_priority.2.2.2.1 0b1000 (by decide) (by decide) (by decide) (by decide),
   C6_analyze_priority.2.2.2.2.1 0b10000 (by decide) (by decide) (by decide) (by decide)⟩

/-- C9: `get_disk_usage` returns `used/total*100` when the disk query succeeds
with `total ≠ 0`, returns 0 when it succeeds with `total = 0`, and on an I/O
failure returns the explicit unavailable marker `none` rather than raising or
returning a number. -/
theorem C9_disk_usage :
    (∀ total used free : Nat, total ≠ 0 →
      get_disk_usage (some (total, used, free)) = some ((used : ℚ) / (total : ℚ) * 100)) ∧
    (∀ used free : Nat, get_disk_usage (some (0, used, free)) = some 0) ∧
    get_disk_usage none = none := by
  refine ⟨fun total used free h => ?_, fun used free => ?_, rfl⟩ <;>
    simp [get_disk_usage, *]

/-- Witness for C9 at a concrete successful query. -/
theorem C9_disk_usage_witness :
    get_disk_usage (some (200, 50, 150)) = some ((50 : ℚ) / (200 : ℚ) * 100) :=
  C9_disk_usage.1 200 50 150 (by decide)

/-- C7: for every pair of current network byte counters and stored previous
counters, `get_network_speed` returns
`((rx - prev_rx)/1024, (tx - prev_tx)/1024)` and overwrites the stored
previous counters with the current ones; with previous `(1024, 2048)` and
current `(3072, 2048)` it returns `(2.0, 0.0)`. -/
theorem C7_network_speed :
    (∀ (prev : Nat × Nat) (rx tx : Nat),
      get_network_speed prev (some rx) (some tx) =
        .ok ((((rx : ℚ) - (prev.1 : ℚ)) / 1024, ((tx : ℚ) - (prev.2 : ℚ)) / 1024),
          (rx, tx))) ∧
    get_network_speed (1024, 2048) (some 3072) (some 2048) =
      .ok (((2 : ℚ), (0 : ℚ)), (3072, 2048)) := by
  constructor
  · intro prev rx tx
    rfl
  · show Except.ok ((((3072 : ℚ) - (1024 : ℚ)) / 1024, ((2048 : ℚ) - (2048 : ℚ)) / 1024),
      ((3072 : Nat), (2048 : Nat))) = _
    norm_num

/-- C8: the previous network counters are seeded to `(0, 0)` at construction,
so the very first call to `get_network_speed` returns the full current byte
counters divided by 1024 (the speed-since-boot spike). -/
theorem C8_first_tick_spike :
    init_prev_net_stats = (0, 0) ∧
    ∀ rx tx : Nat, get_network_speed init_prev_net_stats (some rx) (some tx) =
      .ok (((rx : ℚ) / 1024, (tx : ℚ) / 1024), (rx, tx)) := by
  refine ⟨rfl, fun rx tx => ?_⟩
  show Except.ok ((((rx : ℚ) - ((0 : Nat) : ℚ)) / 1024, ((tx : ℚ) - ((0 : Nat) : ℚ)) / 1024),
    (rx, tx)) = _
  norm_num

/-- C1 (code bug): the first `get_power_status` call with a valid raw value
stores it and returns "Checking status", but the second call with the same
value 0 does not return "OK": line 153 of the source concatenates the string
`current_issues` with a list (and the string `past_issues` with a list), which
raises `TypeError` on every call that gets past the cold start. -/
theorem C1_power_status_eval :
    get_power_status none (some 0) = (some 0, .ok "Checking status") ∧
    get_power_status (some 0) (some 0) = (some 0, .error "TypeError") :=
  ⟨rfl, rfl⟩

/-- C2 (code bug): a tick in which a single collaborator read fails does not
substitute a safe default — it raises.  A failed counter-file read makes
`get_first_line` return `''`, on which `int('')` in `get_network_speed`
raises `ValueError`; a failed throttled-status query returns the `None`
sentinel, which the main loop passes straight to `analyze_throttled`, where
`None & 0x1` raises `TypeError`. -/
theorem C2_tick_failure_eval :
    get_network_speed (0, 0) none (some 2048) = .error "ValueError" ∧
    get_network_speed (0, 0) (some 2048) none = .error "ValueError" ∧
    analyze_throttled_loop none = .error "TypeError" :=
  ⟨rfl, rfl, rfl⟩

/-- C10: `analyze_throttled` always returns normally with one of the five
labels, and the result depends only on the low four bits of the input. -/
theorem C10_analyze_total_and_low_bits :
    (∀ v : Nat, analyze_throttled v = "Undervolt" ∨ analyze_throttled v = "Freq cap" ∨
      analyze_throttled v = "Throttled" ∨ analyze_throttled v = "Temp limit" ∨
      analyze_throttled v = "OK") ∧
    (∀ v w : Nat, v &&& 0xf = w &&& 0xf → analyze_throttled v = analyze_throttled w) := by
  constructor
  · intro v
    unfold analyze_throttled
    split_ifs <;> simp
  · intro v w h
    have e1 : v &&& 0x1 = w &&& 0x1 := by
      rw [← and_fifteen_and v 0x1 (by decide), ← and_fifteen_and w 0x1 (by decide), h]
    have e2 : v &&& 0x2 = w &&& 0x2 := by
      rw [← and_fifteen_and v 0x2 (by decide), ← and_fifteen_and w 0x2 (by decide), h]
    have e4 : v &&& 0x4 = w &&& 0x4 := by
      rw [← and_fifteen_and v 0x4 (by decide), ← and_fifteen_and w 0x4 (by decide), h]
    have e8 : v &&& 0x8 = w &&& 0x8 := by
      rw [← and_fifteen_and v 0x8 (by decide), ← and_fifteen_and w 0x8 (by decide), h]
    simp only [analyze_throttled, e1, e2, e4, e8]

/-- Witness for C10: bit 16 is invisible to the label. -/
theorem C10_analyze_total_and_low_bits_witness :
    analyze_throttled 0x10009 = analyze_throttled 9 :=
  C10_analyze_total_and_low_bits.2 0x10009 9 (by decide)

/-- C3 counterexample: a memory-info mapping in which `MemTotal` is present
with value 0 is not treated as 1 — `dict.get('MemTotal', 1)` only defaults a
*missing* key — so `get_ram_usage` divides by zero there instead of returning
a number. -/
theorem C3_ram_zero_total_counterexample :
    get_ram_usage [("MemTotal", 0)] = .error "ZeroDivisionError" := rfl

/-- C3 amended: `get_ram_usage` returns `(total - available)/total * 100`
whenever the looked-up total is non-zero; a *missing* `MemTotal` defaults to 1
(so a missing total never divides by zero), but a `MemTotal` entry equal to 0
raises `ZeroDivisionError`; for `\x7bMemTotal: 2000, MemAvailable: 500\x7d`
the result is 75. -/
theorem C3_ram_usage_amended :
    (∀ mem_info : List (String × Int),
      (mem_info.lookup "MemTotal").getD 1 ≠ 0 →
      get_ram_usage mem_info =
        .ok (((((mem_info.lookup "MemTotal").getD 1 : Int) : ℚ) -
              (((mem_info.lookup "MemAvailable").getD 0 : Int) : ℚ)) /
             (((mem_info.lookup "MemTotal").getD 1 : Int) : ℚ) * 100)) ∧
    (∀ mem_info : List (String × Int), mem_info.lookup "MemTotal" = none →
      get_ram_usage mem_info =
        .ok (((1 : ℚ) - (((mem_info.lookup "MemAvailable").getD 0 : Int) : ℚ)) / 1 * 100)) ∧
    get_ram_usage [("MemTotal", 2000), ("MemAvailable", 500)] = .ok 75 := by
  refine ⟨fun mem_info h => ?_, fun mem_info h => ?_, ?_⟩
  · simp only [get_ram_usage, if_neg h]
    push_cast
    ring_nf
  · have h1 : (mem_info.lookup "MemTotal").getD 1 = 1 := by rw [h]; rfl
    simp only [get_ram_usage, h1, if_neg one_ne_zero]
    push_cast
    ring_nf
  · have hT : List.lookup "MemTotal" [("MemTotal", (2000 : Int)), ("MemAvailable", 500)] =
        some 2000 := rfl
    have hA : List.lookup "MemAvailable" [("MemTotal", (2000 : Int)), ("MemAvailable", 500)] =
        some 500 := rfl
    simp only [get_ram_usage, hT, hA, Option.getD_some]
    norm_num

/-- Witness for C3 amended, at a mapping distinct from the spec example. -/
theorem C3_ram_usage_amended_witness :
    get_ram_usage [("MemTotal", 4000), ("MemAvailable", 1000)] =
      .ok ((((([("MemTotal", (4000 : Int)), ("MemAvailable", 1000)].lookup
            "MemTotal").getD 1 : Int) : ℚ) -
          ((([("MemTotal", (4000 : Int)), ("MemAvailable", 1000)].lookup
            "MemAvailable").getD 0 : Int) : ℚ)) /
        ((([("MemTotal", (4000 : Int)), ("MemAvailable", 1000)].lookup
            "MemTotal").getD 1 : Int) : ℚ) * 100) :=
  C3_ram_usage_amended.1 [("MemTotal", 4000), ("MemAvailable", 1000)] (by decide)

/-- C4: the first `get_cpu_usage` call with no stored sample returns 0 and
stores the sample; a subsequent call with an identical sample returns 0; and
after every successful call the stored previous sample equals the sample just
passed in.  The identical-sample part is stated for the samples the program
can actually produce: a well-formed `CpuTimeSample` (at least the four fields
user, nice, system, idle) or the empty parse of a failed read. -/
theorem C4_cpu_cold_start :
    (∀ s : List Int, get_cpu_usage none s = .ok (0, some s)) ∧
    (∀ s : List Int, s = [] ∨ 4 ≤ s.length → get_cpu_usage (some s) s = .ok (0, some s)) ∧
    (∀ (prev : Option (List Int)) (s : List Int) (r : ℚ) (st : Option (List Int)),
      get_cpu_usage prev s = .ok (r, st) → st = some s) := by
  refine ⟨fun s => rfl, fun s hs => ?_, fun prev s r st h => ?_⟩
  · rcases hs with rfl | hlen
    · rfl
    · have hne : s.isEmpty = false := by
        cases s with
        | nil => simp at hlen
        | cons a l => rfl
      have hd : cpuDeltas s s = List.replicate s.length 0 := cpuDeltas_self s
      have hlen3 : 3 < (cpuDeltas s s).length := by
        rw [hd, List.length_replicate]
        omega
      have htot : listSum (cpuDeltas s s) = 0 := by rw [hd, listSum_replicate_zero]
      simp [get_cpu_usage, hne, hlen3, htot]
  · cases prev with
    | none =>
      simp only [get_cpu_usage, Except.ok.injEq, Prod.mk.injEq] at h
      exact h.2.symm
    | some p =>
      by_cases hp : p.isEmpty
      · simp only [get_cpu_usage, hp, if_true, Except.ok.injEq, Prod.mk.injEq] at h
        exact h.2.symm
      · simp only [get_cpu_usage, hp, if_false, Bool.false_eq_true] at h
        split at h
        · simp only [Except.ok.injEq, Prod.mk.injEq] at h
          exact h.2.symm
        · simp at h

/-- Witness for C4 at a concrete 5-field sample. -/
theorem C4_cpu_cold_start_witness :
    get_cpu_usage (some [10, 2, 3, 5, 1]) [10, 2, 3, 5, 1] = .ok (0, some [10, 2, 3, 5, 1]) :=
  C4_cpu_cold_start.2.1 [10, 2, 3, 5, 1] (Or.inr (by decide))

/-- C5: for every pair of well-formed monotonic CPU samples (same length, at
least 4 fields, current pointwise at least the stored previous sample),
`get_cpu_usage` returns normally (no division error) with a result in
`[0, 100]`, and returns 0 whenever the total delta is 0. -/
theorem C5_cpu_usage_bounds :
    ∀ (p cur : List Int), p ≠ [] → p.length = cur.length → 4 ≤ cur.length →
    (∀ (i : Nat) (hic : i < cur.length) (hip : i < p.length),
      p.get ⟨i, hip⟩ ≤ cur.get ⟨i, hic⟩) →
    ∃ r : ℚ, get_cpu_usage (some p) cur = .ok (r, some cur) ∧
      0 ≤ r ∧ r ≤ 100 ∧ (listSum (cpuDeltas cur p) = 0 → r = 0) := by
  intro p cur hne hlen h4 hmono
  have hpe : p.isEmpty = false := by
    cases p with
    | nil => cases hne rfl
    | cons a l => rfl
  have hdlen : (cpuDeltas cur p).length = cur.length := by
    simp [cpuDeltas, hlen]
  have h3 : 3 < (cpuDeltas cur p).length := by omega
  have hget : ∀ (i : Nat) (hi : i < (cpuDeltas cur p).length) (hic : i < cur.length)
      (hip : i < p.length),
      (cpuDeltas cur p).get ⟨i, hi⟩ = cur.get ⟨i, hic⟩ - p.get ⟨i, hip⟩ := by
    intro i hi hic hip
    simp [cpuDeltas]
  have hnn : ∀ x ∈ cpuDeltas cur p, 0 ≤ x := by
    intro x hx
    rcases List.mem_iff_getElem.mp hx with ⟨i, hi, hxe⟩
    have hic : i < cur.length := by omega
    have hip : i < p.length := by omega
    have he := hget i hi hic hip
    rw [List.get_eq_getElem] at he
    rw [← hxe, he]
    have := hmono i hic hip
    omega
  have htot0 : 0 ≤ listSum (cpuDeltas cur p) := foldl_add_le_start _ 0 hnn
  have hidle0 : 0 ≤ (cpuDeltas cur p).get ⟨3, h3⟩ := by
    have he := hget 3 h3 (by omega) (by omega)
    have hm := hmono 3 (by omega) (by omega)
    omega
  have hidle_le : (cpuDeltas cur p).get ⟨3, h3⟩ ≤ listSum (cpuDeltas cur p) :=
    getElem_le_foldl_add _ 0 hnn le_rfl 3 h3
  by_cases ht : listSum (cpuDeltas cur p) = 0
  · refine ⟨0, ?_, le_refl 0, by norm_num, fun _ => rfl⟩
    simp [get_cpu_usage, hpe, h3, ht]
  · refine ⟨(1 - (((cpuDeltas cur p).get ⟨3, h3⟩ : Int) : ℚ) /
        ((listSum (cpuDeltas cur p) : Int) : ℚ)) * 100, ?_, ?_, ?_, fun h0 => absurd h0 ht⟩
    · simp [get_cpu_usage, hpe, h3, ht]
    · have hTpos : (0 : ℚ) < ((listSum (cpuDeltas cur p) : Int) : ℚ) := by
        exact_mod_cast lt_of_le_of_ne htot0 (Ne.symm ht)
      have hd1 : (((cpuDeltas cur p).get ⟨3, h3⟩ : Int) : ℚ) /
          ((listSum (cpuDeltas cur p) : Int) : ℚ) ≤ 1 := by
        rw [div_le_one hTpos]
        exact_mod_cast hidle_le
      nlinarith [hd1]
    · have hTpos : (0 : ℚ) < ((listSum (cpuDeltas cur p) : Int) : ℚ) := by
        exact_mod_cast lt_of_le_of_ne htot0 (Ne.symm ht)
      have hd0 : 0 ≤ (((cpuDeltas cur p).get ⟨3, h3⟩ : Int) : ℚ) /
          ((listSum (cpuDeltas cur p) : Int) : ℚ) :=
        div_nonneg (by exact_mod_cast hidle0) (le_of_lt hTpos)
      nlinarith [hd0]

/-- Witness for C5: a monotonic pair of 4-field samples with total delta 2. -/
theorem C5_cpu_usage_bounds_witness :
    ∃ r : ℚ, get_cpu_usage (some [1, 1, 1, 1]) [2, 1, 1, 2] = .ok (r, some [2, 1, 1, 2]) ∧
      0 ≤ r ∧ r ≤ 100 ∧ (listSum (cpuDeltas [2, 1, 1, 2] [1, 1, 1, 1]) = 0 → r = 0) :=
  C5_cpu_usage_bounds [1, 1, 1, 1] [2, 1, 1, 2] (by decide) (by decide) (by decide)
    (by
      intro i hic hip
      simp only [List.length_cons, List.length_nil] at hic
      interval_cases i <;> norm_num)

end RPiMonitor
